import Mathlib

set_option maxHeartbeats 1000000

/-!
Shallow embedding of the simulation core of `src/main.rs` (a bevy snake game):
grid positions, direction resolution, tick-gated movement and propagation,
collision detection, eating, growth, food spawning and game-over reset.
Coordinates reachable in play stay within [-1, 10], far from the i32 range,
so `Int` models `i32` exactly on every state the systems ever see.
-/

namespace SnakeGame

/-- Grid width, `const ARENA_WIDTH: u32 = 10`. -/
def ARENA_WIDTH : Nat := 10

/-- Grid height, `const ARENA_HEIGHT: u32 = 10`. -/
def ARENA_HEIGHT : Nat := 10

/-- Cell coordinates, `struct Position { x: i32, y: i32 }`. -/
structure Position where
  x : Int
  y : Int
deriving DecidableEq

/-- Shorthand constructor for concrete positions. -/
def pp (x y : Int) : Position := ⟨x, y⟩

/-- The four headings, `enum SnakeMoveDirection { Left, Up, Right, Down }`. -/
inductive SnakeMoveDirection where
  | Left
  | Up
  | Right
  | Down
deriving DecidableEq

/-- `SnakeMoveDirection::opposite`. -/
def SnakeMoveDirection.opposite : SnakeMoveDirection → SnakeMoveDirection
  | .Left => .Right
  | .Right => .Left
  | .Up => .Down
  | .Down => .Up

/-- The set of directional keys held in a frame (`keyboard_input.pressed(..)`). -/
structure PressedInput where
  left : Bool
  down : Bool
  up : Bool
  right : Bool
deriving DecidableEq

/-- Direction resolution in `snake_movement`: the if/else-if chain over pressed
keys, priority Left, Down, Up, Right, falling back to the buffered
`next_direction.0` when no key is held. -/
def resolveCandidate (k : PressedInput) (pending : SnakeMoveDirection) :
    SnakeMoveDirection :=
  if k.left then .Left
  else if k.down then .Down
  else if k.up then .Up
  else if k.right then .Right
  else pending

/-- The buffered `NextHeadDirection` after one frame of `snake_movement`:
`if dir != head.direction.opposite() { next_direction.0 = dir; }`. -/
def next_pending (k : PressedInput) (heading pending : SnakeMoveDirection) :
    SnakeMoveDirection :=
  let dir := resolveCandidate k pending
  if dir ≠ heading.opposite then dir else pending

/-- Head advance in `snake_movement`: the `match &head.direction` block that
shifts the head one cell (Left: x-1, Right: x+1, Up: y+1, Down: y-1). -/
def advanceHead : SnakeMoveDirection → Position → Position
  | .Left, p => ⟨p.x - 1, p.y⟩
  | .Right, p => ⟨p.x + 1, p.y⟩
  | .Up, p => ⟨p.x, p.y + 1⟩
  | .Down, p => ⟨p.x, p.y - 1⟩

/-- The Rust cast `x as u32` applied to an `i32` value. -/
def i32AsU32 (x : Int) : Nat := (x % (2 ^ 32 : Int)).toNat

/-- Wall-collision test in `snake_movement`:
`head_pos.x < 0 || head_pos.y < 0 || head_pos.x as u32 >= ARENA_WIDTH ||
head_pos.y as u32 >= ARENA_HEIGHT`. -/
def wallCollision (p : Position) : Bool :=
  decide (p.x < 0) || decide (p.y < 0)
    || decide (ARENA_WIDTH ≤ i32AsU32 p.x) || decide (ARENA_HEIGHT ≤ i32AsU32 p.y)

/-- Self-collision test in `snake_movement`:
`snake_positions.contains(&head_pos)`, against the full pre-move snapshot. -/
def selfCollision (headPos : Position) (snapshot : List Position) : Bool :=
  decide (headPos ∈ snapshot)

/-- Number of `GameOverEvent`s sent by one tick of `snake_movement`: one per
`if` branch that fires (wall check and self check are two separate sends). -/
def gameOverSends (headPos : Position) (snapshot : List Position) : Nat :=
  (if wallCollision headPos then 1 else 0)
    + (if selfCollision headPos snapshot then 1 else 0)

/-- Segment positions after one tick of `snake_movement`, head first: the zip
`snake_positions.iter().zip(snake_entities.0.iter().skip(1))` writes
`snapshot[i]` into segment `i+1`, then the head (segment 0) advances. -/
def tickSegments (heading : SnakeMoveDirection) (snapshot : List Position) :
    List Position :=
  match snapshot with
  | [] => []
  | h0 :: _ => advanceHead heading h0 :: snapshot.dropLast

/-- `snake_eating`: gated on the move timer; returns the surviving food
positions and the number of `GrowthEvent`s sent (one per food whose position
equals the head position). -/
def snake_eating (fired : Bool) (headPos : Position) (foods : List Position) :
    List Position × Nat :=
  if fired then
    (foods.filter (fun f => !(decide (f = headPos))),
     foods.countP (fun f => decide (f = headPos)))
  else (foods, 0)

/-- `snake_growth`: pushes one segment per pending `GrowthEvent` at
`last_tail_position.0.unwrap()`; `none` models the panic of `unwrap` when the
resource was never set. -/
def snake_growth (events : Nat) (lastTail : Option Position)
    (segs : List Position) : Option (List Position) :=
  match events, lastTail with
  | 0, _ => some segs
  | _ + 1, none => none
  | k + 1, some p => some (segs ++ List.replicate (k + 1) p)

/-- The two-segment starting chain built by `snake_setup`: head at (3,3), one
trailing segment at (3,2). -/
def initialSegments : List Position := [pp 3 3, pp 3 2]

/-- The starting heading set by `snake_setup`: `SnakeMoveDirection::Up`. -/
def initialHeading : SnakeMoveDirection := .Up

/-- Move cadence, `Timer::new(Duration::from_millis(1500), true)`. -/
def MOVE_INTERVAL : Nat := 1500

/-- Food cadence, `Timer::new(Duration::from_millis(1000), true)`. -/
def FOOD_INTERVAL : Nat := 1000

/-- One repeating-timer update (`Timer::tick`): accumulate the frame delta,
fire once the interval is reached, and wrap the accumulator on firing. -/
def tickTimer (elapsed delta interval : Nat) : Bool × Nat :=
  let e := elapsed + delta
  if interval ≤ e then (true, e % interval) else (false, e)

/-- Whole-game state: segment positions in `snake_entities` order (head
first), the head's heading, the `Local<NextHeadDirection>` buffer, the
`LastTailPosition` resource, live food positions, and both timer
accumulators in milliseconds. -/
structure GameState where
  segs : List Position
  heading : SnakeMoveDirection
  pending : SnakeMoveDirection
  lastTail : Option Position
  foods : List Position
  moveElapsed : Nat
  foodElapsed : Nat
deriving DecidableEq

/-- Per-frame external input: elapsed wall-clock time, held keys, and the
random cell the food spawner would use this frame. -/
structure FrameInput where
  delta : Nat
  keys : PressedInput
  foodPos : Position
deriving DecidableEq

/-- Observable per-frame output: whether the move timer fired, the heading
committed at the tick, the pre-move snapshot, and the number of GameOver and
Growth events sent this frame. -/
structure FrameOut where
  ticked : Bool
  committed : Option SnakeMoveDirection
  snapshot : List Position
  gameOverSends : Nat
  growthSends : Nat
deriving DecidableEq

/-- State at startup: `snake_setup` plus the `Default` resources
(`NextHeadDirection` is Up, `LastTailPosition` is unset, no food, timers at
zero). -/
def initialState : GameState :=
  { segs := initialSegments, heading := initialHeading, pending := .Up,
    lastTail := none, foods := [], moveElapsed := 0, foodElapsed := 0 }

/-- One frame of the fixed per-frame schedule: timers tick, `snake_movement`
(direction sampling every frame, movement only when the move timer fired),
`snake_eating`, `snake_growth`, `game_over` (reset keeps the `Local` pending
direction and the `LastTailPosition` resource), then `food_spawner`, whose
spawn is a deferred command and therefore survives a same-frame reset.
`none` models the panics of the `unwrap` calls. -/
def stepFrame (inp : FrameInput) (s : GameState) :
    Option (GameState × FrameOut) :=
  let moveT := tickTimer s.moveElapsed inp.delta MOVE_INTERVAL
  let foodT := tickTimer s.foodElapsed inp.delta FOOD_INTERVAL
  let pending2 := next_pending inp.keys s.heading s.pending
  if moveT.1 then
    match s.segs with
    | [] => none
    | h0 :: rest =>
      let snapshot := h0 :: rest
      let heading2 := pending2
      let segs1 := tickSegments heading2 snapshot
      let lt := snapshot.getLastD h0
      let headPos := advanceHead heading2 h0
      let goSends := gameOverSends headPos snapshot
      let eat := snake_eating true headPos s.foods
      match snake_growth eat.2 (some lt) segs1 with
      | none => none
      | some segs2 =>
        some ({ segs := if 0 < goSends then initialSegments else segs2,
                heading := if 0 < goSends then initialHeading else heading2,
                pending := pending2,
                lastTail := some lt,
                foods := (if 0 < goSends then [] else eat.1)
                  ++ (if foodT.1 then [inp.foodPos] else []),
                moveElapsed := moveT.2,
                foodElapsed := foodT.2 },
              { ticked := true, committed := some heading2,
                snapshot := snapshot, gameOverSends := goSends,
                growthSends := eat.2 })
  else
    some ({ segs := s.segs, heading := s.heading, pending := pending2,
            lastTail := s.lastTail,
            foods := s.foods ++ (if foodT.1 then [inp.foodPos] else []),
            moveElapsed := moveT.2, foodElapsed := foodT.2 },
          { ticked := false, committed := none, snapshot := [],
            gameOverSends := 0, growthSends := 0 })

/-- Run a list of frames from a state, discarding the per-frame outputs. -/
def runFrames (inps : List FrameInput) (s : GameState) : Option GameState :=
  match inps with
  | [] => some s
  | i :: rest =>
    match stepFrame i s with
    | none => none
    | some (s2, _) => runFrames rest s2

/-- No directional key held. -/
def noKeys : PressedInput := ⟨false, false, false, false⟩

/-- Only the Left key held. -/
def keyLeft : PressedInput := ⟨true, false, false, false⟩

/-- Only the Down key held. -/
def keyDown : PressedInput := ⟨false, true, false, false⟩

/-- Only the Up key held. -/
def keyUp : PressedInput := ⟨false, false, true, false⟩

/-- Only the Right key held. -/
def keyRight : PressedInput := ⟨false, false, false, true⟩

/-- Shorthand constructor for a frame input. -/
def fi (d : Nat) (k : PressedInput) (fp : Position) : FrameInput := ⟨d, k, fp⟩

/-- Steady 500 ms frames: the move timer fires every third frame, the food
timer every second frame. First 17 frames of a run that steers the snake
Left, then Down into the floor (game over on frame 15, reset), then waits:
the stale buffered Down persists across the reset. -/
def c3Frames : List FrameInput :=
  [fi 500 keyLeft (pp 9 9), fi 500 keyLeft (pp 9 9), fi 500 keyLeft (pp 9 9),
   fi 500 keyDown (pp 9 9), fi 500 keyDown (pp 9 9), fi 500 keyDown (pp 9 9),
   fi 500 noKeys (pp 9 9), fi 500 noKeys (pp 9 9), fi 500 noKeys (pp 9 9),
   fi 500 noKeys (pp 9 9), fi 500 noKeys (pp 9 9), fi 500 noKeys (pp 9 9),
   fi 500 noKeys (pp 9 9), fi 500 noKeys (pp 9 9), fi 500 noKeys (pp 9 9),
   fi 500 noKeys (pp 9 9), fi 500 noKeys (pp 9 9)]

/-- Frame 18 of the same run: the first tick after the reset. -/
def c3Frame18 : FrameInput := fi 500 noKeys (pp 9 9)

/-- Steady 500 ms frames: grow to length four by eating food spawned at
(3,4) and (3,5), then steer Left, Down, Right so that on frame 15 the head
lands exactly on the cell the tail vacates that tick. -/
def c4Frames : List FrameInput :=
  [fi 500 noKeys (pp 9 9), fi 500 noKeys (pp 3 4), fi 500 noKeys (pp 9 9),
   fi 500 noKeys (pp 3 5), fi 500 noKeys (pp 9 9), fi 500 noKeys (pp 9 9),
   fi 500 keyLeft (pp 9 9), fi 500 keyLeft (pp 9 9), fi 500 keyLeft (pp 9 9),
   fi 500 keyDown (pp 9 9), fi 500 keyDown (pp 9 9), fi 500 keyDown (pp 9 9),
   fi 500 keyRight (pp 9 9), fi 500 keyRight (pp 9 9)]

/-- Frame 15 of the same run: the tick whose head lands on the vacated tail
cell. -/
def c4Frame15 : FrameInput := fi 500 keyRight (pp 9 9)

/-- Three 1500 ms frames heading Left toward the wall; both timers fire on
every such frame. -/
def c6Frames : List FrameInput :=
  [fi 1500 keyLeft (pp 9 9), fi 1500 keyLeft (pp 9 9), fi 1500 keyLeft (pp 9 9)]

/-- Frame 4 of the same run: the head hits the wall at (-1,3), game over and
a food spawn land in the same frame. -/
def c6Frame4 : FrameInput := fi 1500 keyLeft (pp 9 9)

/-- Steady 500 ms frames: three food items accumulate at (3,5) (spawned on
frames 2, 4 and 6); the snake loops Right, Up, Left and eats all three at
once on frame 12, appending three segments at one cell. -/
def c10Frames : List FrameInput :=
  [fi 500 noKeys (pp 9 9), fi 500 noKeys (pp 3 5), fi 500 noKeys (pp 9 9),
   fi 500 keyRight (pp 3 5), fi 500 keyRight (pp 9 9), fi 500 keyRight (pp 3 5),
   fi 500 keyUp (pp 9 9), fi 500 keyUp (pp 9 9), fi 500 keyUp (pp 9 9),
   fi 500 keyLeft (pp 9 9), fi 500 keyLeft (pp 9 9), fi 500 keyLeft (pp 9 9),
   fi 500 noKeys (pp 9 9), fi 500 noKeys (pp 9 9)]

/-- Frame 15 of the same run: a tick with no collision, after which two
distinct segments still share the cell (4,4). -/
def c10Frame15 : FrameInput := fi 500 noKeys (pp 9 9)

/-- Concrete pre-state for instantiating the frame-level reset theorem: a
two-segment snake one step from the left wall, three live food items, food
timer at 500 ms. -/
def c6wPre : GameState :=
  { segs := [pp 0 3, pp 1 3], heading := .Left, pending := .Left,
    lastTail := some (pp 1 3), foods := [pp 9 9, pp 9 9, pp 9 9],
    moveElapsed := 0, foodElapsed := 500 }

/-- The 1500 ms frame driving `c6wPre` into the wall while the food timer
also fires. -/
def c6wInp : FrameInput := fi 1500 keyLeft (pp 9 9)

/-- Post-state of `stepFrame c6wInp c6wPre`: reset snake, the same-frame
spawn as the only food. -/
def c6wPost : GameState :=
  { segs := initialSegments, heading := .Up, pending := .Left,
    lastTail := some (pp 1 3), foods := [pp 9 9],
    moveElapsed := 0, foodElapsed := 0 }

/-- Frame output of `stepFrame c6wInp c6wPre`. -/
def c6wOut : FrameOut :=
  { ticked := true, committed := some .Left, snapshot := [pp 0 3, pp 1 3],
    gameOverSends := 1, growthSends := 0 }

/-! ## Helper lemmas -/

/-- The repeating timer reports `fired` exactly when the accumulated time
reaches the interval. -/
theorem tickTimer_fst (elapsed delta interval : Nat) :
    ((tickTimer elapsed delta interval).1 = true)
      ↔ interval ≤ elapsed + delta := by
  by_cases h : interval ≤ elapsed + delta <;> simp [tickTimer, h]

/-- `snake_growth` never panics when the `LastTailPosition` resource is set. -/
theorem snake_growth_some (k : Nat) (p : Position) (l : List Position) :
    snake_growth k (some p) l = some (l ++ List.replicate k p) := by
  cases k <;> simp [snake_growth]

/-- The number of GameOver sends is positive exactly when one of the two
collision checks fires. -/
theorem gameOverSends_pos (hp : Position) (snap : List Position) :
    0 < gameOverSends hp snap
      ↔ (wallCollision hp = true ∨ selfCollision hp snap = true) := by
  unfold gameOverSends
  cases hw : wallCollision hp <;> cases hs : selfCollision hp snap <;>
    simp [hw, hs]

/-- The wall check of `snake_movement`, with its `as u32` casts, agrees with
the plain signed comparison on every in-i32-range position. -/
theorem wallCollision_iff (p : Position) (hx : p.x < 2 ^ 31)
    (hy : p.y < 2 ^ 31) :
    wallCollision p = true
      ↔ (p.x < 0 ∨ p.y < 0 ∨ (ARENA_WIDTH : Int) ≤ p.x
          ∨ (ARENA_HEIGHT : Int) ≤ p.y) := by
  unfold wallCollision i32AsU32
  simp only [Bool.or_eq_true, decide_eq_true_eq, ARENA_WIDTH, ARENA_HEIGHT]
  omega

/-! ## Claim theorems -/

/-- Claim C1: on a tick, each trailing segment i ends at the position its
predecessor i-1 held before the tick, the snake keeps its length, and the
head ends at its pre-tick position shifted one cell along the committed
heading (Left: x-1, Right: x+1, Up: y+1, Down: y-1). -/
theorem c1_propagation_and_head_advance (dir : SnakeMoveDirection)
    (snap : List Position) (h0 : Position) (hh : snap[0]? = some h0)
    (i : Nat) (hi : i + 1 < snap.length) :
    (tickSegments dir snap).length = snap.length ∧
    (tickSegments dir snap)[i + 1]? = snap[i]? ∧
    (tickSegments SnakeMoveDirection.Left snap)[0]?
      = some ⟨h0.x - 1, h0.y⟩ ∧
    (tickSegments SnakeMoveDirection.Right snap)[0]?
      = some ⟨h0.x + 1, h0.y⟩ ∧
    (tickSegments SnakeMoveDirection.Up snap)[0]?
      = some ⟨h0.x, h0.y + 1⟩ ∧
    (tickSegments SnakeMoveDirection.Down snap)[0]?
      = some ⟨h0.x, h0.y - 1⟩ := by
  cases snap with
  | nil => simp at hh
  | cons a rest =>
    have ha : a = h0 := by simpa using hh
    subst ha
    refine ⟨by simp [tickSegments], ?_, by simp [tickSegments, advanceHead],
      by simp [tickSegments, advanceHead], by simp [tickSegments, advanceHead],
      by simp [tickSegments, advanceHead]⟩
    show (advanceHead dir a :: (a :: rest).dropLast)[i + 1]?
      = (a :: rest)[i]?
    rw [List.getElem?_cons_succ, List.getElem?_dropLast,
      if_pos (by simp only [List.length_cons] at hi ⊢; omega)]

/-- Claim C1 witness at the Scenario A snake. -/
theorem c1_witness :
    (([pp 3 3, pp 3 2] : List Position)[0]? = some (pp 3 3)) ∧
    (0 + 1 < ([pp 3 3, pp 3 2] : List Position).length) ∧
    ((tickSegments SnakeMoveDirection.Up [pp 3 3, pp 3 2]).length
        = ([pp 3 3, pp 3 2] : List Position).length ∧
      (tickSegments SnakeMoveDirection.Up [pp 3 3, pp 3 2])[0 + 1]?
        = ([pp 3 3, pp 3 2] : List Position)[0]? ∧
      (tickSegments SnakeMoveDirection.Left [pp 3 3, pp 3 2])[0]?
        = some ⟨(pp 3 3).x - 1, (pp 3 3).y⟩ ∧
      (tickSegments SnakeMoveDirection.Right [pp 3 3, pp 3 2])[0]?
        = some ⟨(pp 3 3).x + 1, (pp 3 3).y⟩ ∧
      (tickSegments SnakeMoveDirection.Up [pp 3 3, pp 3 2])[0]?
        = some ⟨(pp 3 3).x, (pp 3 3).y + 1⟩ ∧
      (tickSegments SnakeMoveDirection.Down [pp 3 3, pp 3 2])[0]?
        = some ⟨(pp 3 3).x, (pp 3 3).y - 1⟩) :=
  ⟨by decide, by decide,
    c1_propagation_and_head_advance SnakeMoveDirection.Up [pp 3 3, pp 3 2]
      (pp 3 3) (by decide) 0 (by decide)⟩

/-- Claim C2: a GameOver signal is emitted on a tick iff the post-move head
is out of bounds or a member of the pre-move snapshot; Scenario B: a head at
(9,5) facing Right moves to exactly (10,5), unclamped, and GameOver fires. -/
theorem c2_gameover_iff (hp : Position) (snap : List Position)
    (hx : hp.x < 2 ^ 31) (hy : hp.y < 2 ^ 31) :
    (0 < gameOverSends hp snap
      ↔ (hp.x < 0 ∨ hp.y < 0 ∨ (ARENA_WIDTH : Int) ≤ hp.x
          ∨ (ARENA_HEIGHT : Int) ≤ hp.y ∨ hp ∈ snap)) ∧
    tickSegments SnakeMoveDirection.Right [pp 9 5, pp 8 5]
      = [pp 10 5, pp 9 5] ∧
    0 < gameOverSends (pp 10 5) [pp 9 5, pp 8 5] := by
  refine ⟨?_, by decide, by decide⟩
  rw [gameOverSends_pos, wallCollision_iff hp hx hy]
  have hself : selfCollision hp snap = true ↔ hp ∈ snap := by
    simp [selfCollision]
  rw [hself]
  tauto

/-- Claim C2 witness at Scenario B. -/
theorem c2_witness :
    ((pp 10 5).x < 2 ^ 31) ∧ ((pp 10 5).y < 2 ^ 31) ∧
    ((0 < gameOverSends (pp 10 5) [pp 9 5, pp 8 5]
      ↔ ((pp 10 5).x < 0 ∨ (pp 10 5).y < 0 ∨ (ARENA_WIDTH : Int) ≤ (pp 10 5).x
          ∨ (ARENA_HEIGHT : Int) ≤ (pp 10 5).y ∨ pp 10 5 ∈ [pp 9 5, pp 8 5])) ∧
    tickSegments SnakeMoveDirection.Right [pp 9 5, pp 8 5]
      = [pp 10 5, pp 9 5] ∧
    0 < gameOverSends (pp 10 5) [pp 9 5, pp 8 5]) :=
  ⟨by decide, by decide,
    c2_gameover_iff (pp 10 5) [pp 9 5, pp 8 5] (by decide) (by decide)⟩

/-- Claim C3: the code has no commit-time re-check, so the heading committed
at the first tick after a game-over reset can be the opposite of the heading
held just before that tick. In this 18-frame run the snake dies heading
Down, the reset restores heading Up while the `Local` buffer still holds
Down, and the next tick commits Down = opposite(Up), which also makes the
head re-enter its own body (a second GameOver right after reset). -/
theorem c3_stale_pending_reverses_after_reset :
    ((runFrames c3Frames initialState).bind (fun s =>
        (stepFrame c3Frame18 s).map (fun p =>
          (s.heading, p.2.committed, p.2.gameOverSends))))
      = some (SnakeMoveDirection.Up, some SnakeMoveDirection.Down, 1)
    ∧ SnakeMoveDirection.Up.opposite = SnakeMoveDirection.Down := by
  exact ⟨by decide, rfl⟩

/-- Claim C4 counterexample: a reachable tick (frame 15 of `c4Frames`) where
the post-move head (3,4) equals exactly the pre-move tail position, no wall
collision holds and no non-tail snapshot cell is hit, yet a GameOver signal
is emitted. -/
theorem c4_counterexample :
    ((runFrames c4Frames initialState).bind (fun s =>
        (stepFrame c4Frame15 s).map (fun p =>
          (p.2.snapshot, p.2.gameOverSends))))
      = some ([pp 2 4, pp 2 5, pp 3 5, pp 3 4], 1)
    ∧ advanceHead SnakeMoveDirection.Right (pp 2 4) = pp 3 4
    ∧ ([pp 2 4, pp 2 5, pp 3 5, pp 3 4] : List Position).getLast?
        = some (pp 3 4)
    ∧ wallCollision (pp 3 4) = false
    ∧ (pp 3 4) ∉ ([pp 2 4, pp 2 5, pp 3 5] : List Position) := by
  exact ⟨by decide, by decide, by decide, by decide, by decide⟩

/-- Claim C4 amended: landing exactly on the vacated tail cell IS a self
collision — the check tests membership in the full pre-move snapshot, which
includes the tail's pre-move position, so a GameOver signal is emitted. -/
theorem c4_amended_vacated_tail_is_collision (hp tl : Position)
    (snap : List Position) (hl : snap.getLast? = some tl) (he : hp = tl) :
    0 < gameOverSends hp snap := by
  subst he
  have hm : hp ∈ snap := List.mem_of_getLast?_eq_some hl
  cases hw : wallCollision hp <;>
    simp [gameOverSends, hw, selfCollision, hm]

/-- Claim C4 amended witness at the frame-15 snapshot of `c4Frames`. -/
theorem c4_amended_witness :
    (([pp 2 4, pp 2 5, pp 3 5, pp 3 4] : List Position).getLast?
        = some (pp 3 4)) ∧
    (pp 3 4 = pp 3 4) ∧
    0 < gameOverSends (pp 3 4) [pp 2 4, pp 2 5, pp 3 5, pp 3 4] :=
  ⟨by decide, rfl,
    c4_amended_vacated_tail_is_collision (pp 3 4) (pp 3 4)
      [pp 2 4, pp 2 5, pp 3 5, pp 3 4] (by decide) rfl⟩

/-- Claim C5 counterexample: when the post-move head is both out of bounds
and a member of the pre-move snapshot, the two independent `if` blocks send
two GameOver signals, not at most one. -/
theorem c5_counterexample :
    wallCollision (pp 10 5) = true ∧
    selfCollision (pp 10 5) [pp 9 5, pp 10 5] = true ∧
    gameOverSends (pp 10 5) [pp 9 5, pp 10 5] = 2 := by
  exact ⟨by decide, by decide, by decide⟩

/-- Claim C5 amended: at most one GameOver signal is emitted per collision
condition, hence at most two per tick, and exactly two precisely when wall
collision and self collision both hold. -/
theorem c5_amended_one_send_per_condition (hp : Position)
    (snap : List Position) :
    gameOverSends hp snap ≤ 2 ∧
    (gameOverSends hp snap = 2
      ↔ (wallCollision hp = true ∧ selfCollision hp snap = true)) := by
  unfold gameOverSends
  cases hw : wallCollision hp <;> cases hs : selfCollision hp snap <;>
    simp [hw, hs]

/-- Claim C5 amended witness at the double-collision input. -/
theorem c5_amended_witness :
    gameOverSends (pp 10 5) [pp 9 5, pp 10 5] ≤ 2 ∧
    (gameOverSends (pp 10 5) [pp 9 5, pp 10 5] = 2
      ↔ (wallCollision (pp 10 5) = true
          ∧ selfCollision (pp 10 5) [pp 9 5, pp 10 5] = true)) :=
  c5_amended_one_send_per_condition (pp 10 5) [pp 9 5, pp 10 5]

/-- Claim C6 counterexample: a reachable run (`c6Frames` then `c6Frame4`)
whose game-over frame coincides with a food-timer firing; the deferred spawn
survives the reset, so the post-frame food set is not empty. -/
theorem c6_counterexample :
    ((runFrames c6Frames initialState).bind (fun s =>
        (stepFrame c6Frame4 s).map (fun p =>
          (p.2.gameOverSends, p.1.foods, p.1.segs, p.1.heading))))
      = some (1, [pp 9 9], initialSegments, initialHeading)
    ∧ ([pp 9 9] : List Position) ≠ [] := by
  exact ⟨by decide, by decide⟩

/-- Claim C6 amended: after any frame that consumes a GameOver signal, every
previously live food and segment is destroyed and the snake is back to its
two-segment start (head (3,3), tail (3,2), heading Up); the food set is
empty except for the food spawned by the food timer in that same frame. -/
theorem c6_amended_reset_keeps_same_frame_spawn (s sPost : GameState)
    (inp : FrameInput) (out : FrameOut)
    (h : stepFrame inp s = some (sPost, out)) (hg : 0 < out.gameOverSends) :
    sPost.segs = initialSegments ∧ sPost.heading = initialHeading ∧
    sPost.foods = (if FOOD_INTERVAL ≤ s.foodElapsed + inp.delta
      then [inp.foodPos] else []) := by
  simp only [stepFrame] at h
  split at h
  case isFalse =>
    simp only [Option.some.injEq, Prod.mk.injEq] at h
    obtain ⟨-, h2⟩ := h
    rw [← h2] at hg
    simp at hg
  case isTrue hmv =>
    split at h
    case h_1 => simp at h
    case h_2 h0 rest hsegs =>
      rw [snake_growth_some] at h
      simp only [Option.some.injEq, Prod.mk.injEq] at h
      obtain ⟨h1, h2⟩ := h
      rw [← h2] at hg
      simp only [] at hg
      rw [← h1]
      refine ⟨by simp [hg], by simp [hg], ?_⟩
      by_cases hf : FOOD_INTERVAL ≤ s.foodElapsed + inp.delta
      · simp [hg, hf, (tickTimer_fst s.foodElapsed inp.delta FOOD_INTERVAL).mpr hf]
      · have : ((tickTimer s.foodElapsed inp.delta FOOD_INTERVAL).1 = true) ↔ _ :=
          tickTimer_fst s.foodElapsed inp.delta FOOD_INTERVAL
        simp [hg, hf, this]

/-- Claim C6 amended witness: a wall hit on a frame where the food timer
also fires. -/
theorem c6_amended_witness :
    stepFrame c6wInp c6wPre = some (c6wPost, c6wOut) ∧
    0 < c6wOut.gameOverSends ∧
    (c6wPost.segs = initialSegments ∧ c6wPost.heading = initialHeading ∧
      c6wPost.foods = (if FOOD_INTERVAL ≤ c6wPre.foodElapsed + c6wInp.delta
        then [c6wInp.foodPos] else [])) :=
  ⟨by decide, by decide,
    c6_amended_reset_keeps_same_frame_spawn c6wPre c6wPost c6wInp c6wOut
      (by decide) (by decide)⟩

/-- Claim C7: processing k+1 Growth signals with `LastTailPosition` set
appends exactly k+1 segments, each at the recorded pre-move tail position,
and leaves every existing segment's position unchanged. -/
theorem c7_growth_appends_at_last_tail (k : Nat) (tl : Position)
    (segs : List Position) :
    snake_growth (k + 1) (some tl) segs
      = some (segs ++ List.replicate (k + 1) tl) ∧
    (segs ++ List.replicate (k + 1) tl).length = segs.length + (k + 1) ∧
    (∀ i, i < segs.length →
      (segs ++ List.replicate (k + 1) tl)[i]? = segs[i]?) ∧
    (∀ i, segs.length ≤ i → i < segs.length + (k + 1) →
      (segs ++ List.replicate (k + 1) tl)[i]? = some tl) := by
  refine ⟨rfl, by simp, ?_, ?_⟩
  · intro i hi
    exact List.getElem?_append_left hi
  · intro i h1 h2
    rw [List.getElem?_append_right h1, List.getElem?_replicate_of_lt (by omega)]

/-- Claim C7 witness: one Growth signal on the Scenario D snake. -/
theorem c7_witness :
    snake_growth (0 + 1) (some (pp 3 2)) [pp 3 4, pp 3 3]
      = some ([pp 3 4, pp 3 3] ++ List.replicate (0 + 1) (pp 3 2)) ∧
    ([pp 3 4, pp 3 3] ++ List.replicate (0 + 1) (pp 3 2)).length
      = ([pp 3 4, pp 3 3] : List Position).length + (0 + 1) ∧
    (∀ i, i < ([pp 3 4, pp 3 3] : List Position).length →
      ([pp 3 4, pp 3 3] ++ List.replicate (0 + 1) (pp 3 2))[i]?
        = ([pp 3 4, pp 3 3] : List Position)[i]?) ∧
    (∀ i, ([pp 3 4, pp 3 3] : List Position).length ≤ i →
      i < ([pp 3 4, pp 3 3] : List Position).length + (0 + 1) →
      ([pp 3 4, pp 3 3] ++ List.replicate (0 + 1) (pp 3 2))[i]?
        = some (pp 3 2)) :=
  c7_growth_appends_at_last_tail 0 (pp 3 2) [pp 3 4, pp 3 3]

/-- Claim C8: on a fired tick, every food occurrence at the head position is
destroyed and contributes exactly one Growth signal (overlapping occurrences
count independently), food elsewhere is kept with multiplicity; on a frame
without a tick nothing is destroyed and no Growth signal is sent. -/
theorem c8_eating_tick_gated (hp : Position) (foods : List Position) :
    ((snake_eating true hp foods).1.countP (fun q => decide (q = hp)) = 0) ∧
    (∀ p : Position, p ≠ hp →
      (snake_eating true hp foods).1.countP (fun q => decide (q = p))
        = foods.countP (fun q => decide (q = p))) ∧
    ((snake_eating true hp foods).2
      = foods.countP (fun f => decide (f = hp))) ∧
    (snake_eating false hp foods = (foods, 0)) := by
  refine ⟨?_, ?_, by simp [snake_eating], by simp [snake_eating]⟩
  · simp [snake_eating, List.countP_filter]
  · intro p hne
    rw [show (snake_eating true hp foods).1
        = foods.filter (fun f => !(decide (f = hp))) by simp [snake_eating],
      List.countP_filter]
    refine List.countP_congr ?_
    intro x hx
    by_cases hxp : x = p
    · subst hxp
      simp [hne]
    · simp [hxp]

/-- Claim C8 witness: two overlapping food items at the head plus one
elsewhere. -/
theorem c8_witness :
    ((snake_eating true (pp 3 5) [pp 3 5, pp 9 9, pp 3 5]).1.countP
        (fun q => decide (q = pp 3 5)) = 0) ∧
    (∀ p : Position, p ≠ pp 3 5 →
      (snake_eating true (pp 3 5) [pp 3 5, pp 9 9, pp 3 5]).1.countP
          (fun q => decide (q = p))
        = ([pp 3 5, pp 9 9, pp 3 5] : List Position).countP
            (fun q => decide (q = p))) ∧
    ((snake_eating true (pp 3 5) [pp 3 5, pp 9 9, pp 3 5]).2
      = ([pp 3 5, pp 9 9, pp 3 5] : List Position).countP
          (fun f => decide (f = pp 3 5))) ∧
    (snake_eating false (pp 3 5) [pp 3 5, pp 9 9, pp 3 5]
      = ([pp 3 5, pp 9 9, pp 3 5], 0)) :=
  c8_eating_tick_gated (pp 3 5) [pp 3 5, pp 9 9, pp 3 5]

/-- Claim C9: the candidate is the first pressed direction in priority order
Left, Down, Up, Right, falling back to the buffered direction when nothing
is pressed; the buffer is updated to the candidate exactly when the
candidate is not the opposite of the current heading. -/
theorem c9_direction_resolver (k : PressedInput)
    (heading pending : SnakeMoveDirection) :
    (k.left = true → resolveCandidate k pending = SnakeMoveDirection.Left) ∧
    (k.left = false → k.down = true →
      resolveCandidate k pending = SnakeMoveDirection.Down) ∧
    (k.left = false → k.down = false → k.up = true →
      resolveCandidate k pending = SnakeMoveDirection.Up) ∧
    (k.left = false → k.down = false → k.up = false → k.right = true →
      resolveCandidate k pending = SnakeMoveDirection.Right) ∧
    (k.left = false → k.down = false → k.up = false → k.right = false →
      resolveCandidate k pending = pending) ∧
    (resolveCandidate k pending = heading.opposite →
      next_pending k heading pending = pending) ∧
    (resolveCandidate k pending ≠ heading.opposite →
      next_pending k heading pending = resolveCandidate k pending) := by
  refine ⟨?_, ?_, ?_, ?_, ?_, ?_, ?_⟩
  · intro h1
    simp [resolveCandidate, h1]
  · intro h1 h2
    simp [resolveCandidate, h1, h2]
  · intro h1 h2 h3
    simp [resolveCandidate, h1, h2, h3]
  · intro h1 h2 h3 h4
    simp [resolveCandidate, h1, h2, h3, h4]
  · intro h1 h2 h3 h4
    simp [resolveCandidate, h1, h2, h3, h4]
  · intro h
    simp [next_pending, h]
  · intro h
    simp [next_pending, h]

/-- Claim C9 witness: Scenario C, Down pressed while heading Up. -/
theorem c9_witness :
    (keyDown.left = true →
      resolveCandidate keyDown SnakeMoveDirection.Up
        = SnakeMoveDirection.Left) ∧
    (keyDown.left = false → keyDown.down = true →
      resolveCandidate keyDown SnakeMoveDirection.Up
        = SnakeMoveDirection.Down) ∧
    (keyDown.left = false → keyDown.down = false → keyDown.up = true →
      resolveCandidate keyDown SnakeMoveDirection.Up
        = SnakeMoveDirection.Up) ∧
    (keyDown.left = false → keyDown.down = false → keyDown.up = false →
      keyDown.right = true →
      resolveCandidate keyDown SnakeMoveDirection.Up
        = SnakeMoveDirection.Right) ∧
    (keyDown.left = false → keyDown.down = false → keyDown.up = false →
      keyDown.right = false →
      resolveCandidate keyDown SnakeMoveDirection.Up
        = SnakeMoveDirection.Up) ∧
    (resolveCandidate keyDown SnakeMoveDirection.Up
        = SnakeMoveDirection.Up.opposite →
      next_pending keyDown SnakeMoveDirection.Up SnakeMoveDirection.Up
        = SnakeMoveDirection.Up) ∧
    (resolveCandidate keyDown SnakeMoveDirection.Up
        ≠ SnakeMoveDirection.Up.opposite →
      next_pending keyDown SnakeMoveDirection.Up SnakeMoveDirection.Up
        = resolveCandidate keyDown SnakeMoveDirection.Up) :=
  c9_direction_resolver keyDown SnakeMoveDirection.Up SnakeMoveDirection.Up

/-- Claim C10 counterexample: a reachable run (`c10Frames` then
`c10Frame15`) where three overlapping food items eaten on one tick append
three segments at the same `LastTailPosition`; after the next tick, which
triggers no GameOver, two distinct live segments (indices 3 and 4) still
share the cell (4,4). -/
theorem c10_counterexample :
    ((runFrames c10Frames initialState).bind (fun s =>
        (stepFrame c10Frame15 s).map (fun p =>
          (p.2.ticked, p.2.gameOverSends, p.1.segs))))
      = some (true, 0, [pp 2 5, pp 3 5, pp 4 5, pp 4 4, pp 4 4])
    ∧ ¬ ([pp 2 5, pp 3 5, pp 4 5, pp 4 4, pp 4 4] : List Position).Nodup
    ∧ ([pp 2 5, pp 3 5, pp 4 5, pp 4 4, pp 4 4] : List Position)[3]?
        = some (pp 4 4)
    ∧ ([pp 2 5, pp 3 5, pp 4 5, pp 4 4, pp 4 4] : List Position)[4]?
        = some (pp 4 4) := by
  exact ⟨by decide, by decide, by decide, by decide⟩

/-- Claim C10 amended: a tick that triggers no GameOver produces pairwise
distinct segment positions provided the pre-move positions other than the
tail's were pairwise distinct; a duplicate confined to the last snapshot
entry (as left by two simultaneous growths) is absorbed, but three or more
segments stacked at one cell violate the invariant (see the
counterexample). -/
theorem c10_amended_nodup_after_tick (dir : SnakeMoveDirection)
    (h0 : Position) (rest : List Position)
    (hnd : ((h0 :: rest).dropLast).Nodup)
    (hgo : gameOverSends (advanceHead dir h0) (h0 :: rest) = 0) :
    (tickSegments dir (h0 :: rest)).Nodup := by
  have hmem : advanceHead dir h0 ∉ (h0 :: rest) := by
    intro hm
    have hs : selfCollision (advanceHead dir h0) (h0 :: rest) = true := by
      simp [selfCollision, hm]
    unfold gameOverSends at hgo
    rw [hs] at hgo
    cases hw : wallCollision (advanceHead dir h0) <;> rw [hw] at hgo <;>
      simp at hgo
  have hmem2 : advanceHead dir h0 ∉ (h0 :: rest).dropLast := by
    intro hx
    exact hmem ((List.dropLast_sublist (h0 :: rest)).subset hx)
  rw [show tickSegments dir (h0 :: rest)
    = advanceHead dir h0 :: (h0 :: rest).dropLast from rfl, List.nodup_cons]
  exact ⟨hmem2, hnd⟩

/-- Claim C10 amended witness at the Scenario A snake. -/
theorem c10_amended_witness :
    ((pp 3 3 :: [pp 3 2]).dropLast).Nodup ∧
    gameOverSends (advanceHead SnakeMoveDirection.Up (pp 3 3))
      (pp 3 3 :: [pp 3 2]) = 0 ∧
    (tickSegments SnakeMoveDirection.Up (pp 3 3 :: [pp 3 2])).Nodup :=
  ⟨by decide, by decide,
    c10_amended_nodup_after_tick SnakeMoveDirection.Up (pp 3 3) [pp 3 2]
      (by decide) (by decide)⟩

end SnakeGame
